import Mathlib

/-!
Verification of the maritime route-planning and voyage-simulation core of the
weathermary repository (BACKEND/app.py and BACKEND/simu_routes.py).

Numeric modelling: Python floats are modelled as exact rationals (ℚ); the
trigonometric great-circle distance functions are modelled over ℝ.  Python's
built-in `round` (round-half-to-even, returning an int) is modelled by
`pyRound`.  The per-leg / per-field `round(x, 2)` display rounding that the
endpoints apply when serialising responses is omitted except where a claim is
about the surfaced (rounded) values, in which case `pyRound` is applied
exactly where the source applies `round`.  String values (risk levels, laycan
statuses, error messages, port names) are kept as Lean `String`s.
-/

namespace Weathermary

/-- Python's built-in `round` on a real value, half-to-even, as a map ℚ → ℤ. -/
def pyRound (q : ℚ) : ℤ :=
  let f : ℤ := ⌊q⌋
  let r : ℚ := q - f
  if r < 1/2 then f
  else if 1/2 < r then f + 1
  else if Even f then f else f + 1

/-- A port record from `MAJOR_PORTS` in app.py: name, coordinates, bunker
price and port cost per ton (country field omitted, unused by computation). -/
structure Port where
  pname : String
  lat : ℚ
  lng : ℚ
  bunker_price : ℚ
  port_cost_per_ton : ℚ
deriving DecidableEq

/-- The `MAJOR_PORTS` catalog of app.py, in source order. -/
def MAJOR_PORTS : List Port := [
  ⟨"Singapore", 1.3521, 103.8198, 680, 0.8⟩,
  ⟨"Rotterdam", 51.9225, 4.4792, 650, 0.9⟩,
  ⟨"Shanghai", 31.2304, 121.4737, 670, 0.7⟩,
  ⟨"Hamburg", 53.5511, 9.9937, 660, 0.85⟩,
  ⟨"Los Angeles", 33.7485, -118.2436, 720, 1.0⟩,
  ⟨"Dubai", 25.2532, 55.3657, 640, 0.75⟩,
  ⟨"Hong Kong", 22.3193, 114.1694, 675, 0.8⟩,
  ⟨"Antwerp", 51.2194, 4.4025, 655, 0.9⟩,
  ⟨"Long Beach", 33.7701, -118.1937, 715, 1.0⟩,
  ⟨"Busan", 35.1796, 129.0756, 690, 0.8⟩,
  ⟨"Tokyo", 35.6162, 139.7431, 700, 0.9⟩,
  ⟨"Mumbai", 19.0760, 72.8777, 635, 0.6⟩,
  ⟨"Felixstowe", 51.9542, 1.3509, 665, 0.85⟩,
  ⟨"Valencia", 39.4699, -0.3763, 645, 0.8⟩]

/-- A ship profile from `SHIP_TYPES` in app.py (typical_dwt_range and
cost_per_ton_fuel omitted: unused by the route-plan computation). -/
structure ShipType where
  key : String
  sname : String
  fuel_rate_tons_per_day : ℚ
  avg_speed_knots : ℚ
  fuel_efficiency_factor : ℚ
deriving DecidableEq

/-- The `SHIP_TYPES` catalog of app.py, in source order. -/
def SHIP_TYPES : List ShipType := [
  ⟨"container", "Container Ship", 250, 22, 1.0⟩,
  ⟨"bulk", "Bulk Carrier", 180, 14, 0.9⟩,
  ⟨"tanker", "Oil Tanker", 200, 16, 0.95⟩,
  ⟨"general", "General Cargo", 120, 18, 1.1⟩,
  ⟨"roro", "RoRo Vessel", 160, 20, 1.05⟩]

/-- A rectangular zone bound, as in the `bounds` dicts of app.py. -/
structure Bounds where
  lat_min : ℚ
  lat_max : ℚ
  lng_min : ℚ
  lng_max : ℚ
deriving DecidableEq

/-- A named geographic zone; `risk_level` holds the piracy risk level for
piracy zones (unused for ECA zones, whose sulfur limit is a constant). -/
structure Zone where
  zname : String
  bounds : Bounds
  risk_level : String
deriving DecidableEq

/-- The `ECA_ZONES` dict of app.py, in source order. -/
def ECA_ZONES : List Zone := [
  ⟨"North American ECA", ⟨25, 50, -130, -65⟩, ""⟩,
  ⟨"North Sea ECA", ⟨51, 62, -5, 12⟩, ""⟩,
  ⟨"Baltic Sea ECA", ⟨53.5, 66, 10, 30⟩, ""⟩]

/-- The `PIRACY_ZONES` dict of app.py, in source order. -/
def PIRACY_ZONES : List Zone := [
  ⟨"Gulf of Aden", ⟨10, 18, 42, 52⟩, "HIGH"⟩,
  ⟨"West Africa", ⟨-5, 10, -10, 8⟩, "HIGH"⟩,
  ⟨"Strait of Malacca", ⟨1, 6, 100, 105⟩, "MEDIUM"⟩]

/-- A latitude/longitude pair, the `{"lat": .., "lng": ..}` coordinate dicts. -/
structure Coords where
  lat : ℚ
  lng : ℚ
deriving DecidableEq

/-- `is_point_in_zone` of app.py: inclusive bounding-box containment. -/
def is_point_in_zone (lat lng : ℚ) (b : Bounds) : Prop :=
  b.lat_min ≤ lat ∧ lat ≤ b.lat_max ∧ b.lng_min ≤ lng ∧ lng ≤ b.lng_max

instance (lat lng : ℚ) (b : Bounds) : Decidable (is_point_in_zone lat lng b) :=
  inferInstanceAs (Decidable (_ ∧ _ ∧ _ ∧ _))

/-- A risk finding from `assess_route_risks`: its `type` and `level` fields
(the free-text `description` and extra keys are omitted). -/
structure RiskFinding where
  rtype : String
  level : String
deriving DecidableEq

/-- The result record of `assess_route_risks`: overall risk, score capped at
100, and the ordered finding list (recommendations omitted — a fixed
type-indexed mapping that no claim depends on). -/
structure RiskAssessment where
  overall_risk : String
  risk_score : ℕ
  individual_risks : List RiskFinding
deriving DecidableEq

/-- One step of the piracy-zone loop in `assess_route_risks`: if either
endpoint is in the zone, append a finding and add 35 (HIGH) or 20 (else). -/
def piracyStep (o d : Coords) (acc : List RiskFinding × ℕ) (z : Zone) :
    List RiskFinding × ℕ :=
  if is_point_in_zone o.lat o.lng z.bounds ∨ is_point_in_zone d.lat d.lng z.bounds then
    (acc.1 ++ [⟨"Piracy Risk", z.risk_level⟩],
     acc.2 + if z.risk_level = "HIGH" then 35 else 20)
  else acc

/-- The shape shared by the three remaining rules of `assess_route_risks`:
when the rule's condition holds, append its finding and add its points. -/
def riskStep (cond : Prop) [Decidable cond] (f : RiskFinding) (pts : ℕ)
    (acc : List RiskFinding × ℕ) : List RiskFinding × ℕ :=
  if cond then (acc.1 ++ [f], acc.2 + pts) else acc

/-- The overall-risk classification at the end of `assess_route_risks`,
computed from the uncapped score. -/
def overallOf (score : ℕ) : String :=
  if score ≥ 50 then "HIGH" else if score ≥ 25 then "MEDIUM" else "LOW"

/-- `origin_name` / `dest_name` resolution in `assess_route_risks`: the
`next((name for name, coords in MAJOR_PORTS.items() if abs(...) < 0.1),
"Unknown")` scan — the first port of the list whose latitude is within 0.1 of
the given latitude, else "Unknown". -/
def findPortByLat (lat : ℚ) : List Port → String
  | [] => "Unknown"
  | p :: ps => if |p.lat - lat| < 0.1 then p.pname else findPortByLat lat ps

/-- The fixed `busy_ports` list of `assess_route_risks`. -/
def busy_ports : List String := ["Singapore", "Shanghai", "Rotterdam", "Los Angeles"]

/-- `assess_route_risks` of app.py.  The departure date enters only through
its month, taken here directly as `dep_month`.  Findings accumulate in source
order: piracy zones, seasonal weather, latitude variation, port congestion;
`overall_risk` is computed from the uncapped score, the returned `risk_score`
is capped at 100. -/
def assess_route_risks (o d : Coords) (dep_month : ℕ) : RiskAssessment :=
  let pz := PIRACY_ZONES.foldl (piracyStep o d) ([], 0)
  let s1 := riskStep (dep_month ∈ ([6, 7, 8, 9, 10] : List ℕ))
    ⟨"Seasonal Weather", "MEDIUM"⟩ 20 pz
  let s2 := riskStep (|o.lat - d.lat| > 40) ⟨"Weather Variation", "MEDIUM"⟩ 15 s1
  let s3 := riskStep (findPortByLat o.lat MAJOR_PORTS ∈ busy_ports
    ∨ findPortByLat d.lat MAJOR_PORTS ∈ busy_ports) ⟨"Port Congestion", "LOW"⟩ 10 s2
  ⟨overallOf s3.2, min s3.2 100, s3.1⟩

/-- The zone loop of `calculate_eca_compliance`: names of the zones of the
given list containing either endpoint, in order. -/
def eca_zones_crossed_in (o d : Coords) : List Zone → List String
  | [] => []
  | z :: zs =>
    if is_point_in_zone o.lat o.lng z.bounds ∨ is_point_in_zone d.lat d.lng z.bounds then
      z.zname :: eca_zones_crossed_in o d zs
    else eca_zones_crossed_in o d zs

/-- `calculate_eca_compliance` of app.py, reduced to the fields computation
uses: the list of ECA zone names containing either endpoint, and
`compliance_costs = 15000 × (number of zones crossed)` (the fixed sulfur
disclosure text is constant and omitted). -/
def calculate_eca_compliance (o d : Coords) : List String × ℤ :=
  let crossed := eca_zones_crossed_in o d ECA_ZONES
  (crossed, (crossed.length : ℤ) * 15000)

/-- Whether `n` is a prefix of `h`, character-listwise (Python `str.startswith`
restricted to what substring search needs). -/
def charsStarts : List Char → List Char → Bool
  | [], _ => true
  | _ :: _, [] => false
  | a :: as, b :: bs => a = b && charsStarts as bs

/-- Whether `n` occurs as a contiguous substring of `h` (Python's `in` on
strings), by scanning every suffix of `h`. -/
def charsSubstr (n : List Char) : List Char → Bool
  | [] => n.isEmpty
  | c :: t => charsStarts n (c :: t) || charsSubstr n t

/-- Python `needle in haystack` on strings. -/
def strIn (needle hay : String) : Bool :=
  charsSubstr needle.data hay.data

/-- The canal-cost heuristic of `maritime_route_plan` (app.py lines 422-429):
`route_key = f"{origin}-{destination}"`; a flat 222865 Suez surcharge is
applied only when the key contains one of
Singapore/Rotterdam/Hamburg/Antwerp AND one of "Middle East"/"Asia"/"Europe"
as substrings. -/
def canal_cost_of (origin destination : String) : ℤ :=
  let route_key := origin ++ "-" ++ destination
  if (["Singapore", "Rotterdam", "Hamburg", "Antwerp"].any (fun x => strIn x route_key))
      && (["Middle East", "Asia", "Europe"].any (fun y => strIn y route_key)) then
    222865
  else 0

/-- The weather factor of `maritime_route_plan`: 0.95 when weather-optimized,
else 1.15 for departure months 11,12,1,2,3, 1.10 for months 6,7,8,9, else 1. -/
def weather_factor_of (weather_optimized : Bool) (dep_month : ℕ) : ℚ :=
  if weather_optimized then 0.95
  else if dep_month ∈ ([11, 12, 1, 2, 3] : List ℕ) then 1.15
  else if dep_month ∈ ([6, 7, 8, 9] : List ℕ) then 1.10
  else 1.0

/-- The `cost_breakdown` object surfaced by `maritime_route_plan`
(app.py lines 507-516), fields in source order, each an integer exactly as
serialised (`round(...)` where the source rounds, the raw value where it does
not), together with the exact pre-rounding rational values the endpoint
computed them from. -/
structure CostBreakdown where
  fuel_cost : ℤ
  port_cost : ℤ
  canal_cost : ℤ
  insurance_cost : ℤ
  compliance_cost : ℤ
  other_costs : ℤ
  total_cost : ℤ
  fuel_cost_exact : ℚ
  port_cost_exact : ℚ
  insurance_cost_exact : ℚ
  total_cost_exact : ℚ
deriving DecidableEq

/-- The parts of the `maritime_route_plan` response the claims are about. -/
structure RoutePlanResult where
  voyage_days : ℤ
  weather_factor : ℚ
  total_fuel_consumption : ℚ
  cost_breakdown : CostBreakdown
  risk_assessment : RiskAssessment
deriving DecidableEq

/-- The cost/risk pipeline of `maritime_route_plan` (app.py lines 384-516)
after the catalog lookups have succeeded.  `base_distance` is the output of
`calculate_great_circle_distance` on the two port coordinates, taken here as
a parameter (that trigonometric function is modelled separately over ℝ); the
departure date enters only through its month `dep_month`. -/
def route_plan_core (origin destination : Port) (ship_spec : ShipType)
    (deadweight cargo_value : ℚ) (dep_month : ℕ) (weather_optimized : Bool)
    (base_distance : ℚ) : RoutePlanResult :=
  let actual_distance := base_distance * 1.15
  let avg_speed := ship_spec.avg_speed_knots
  let voyage_days : ℤ := ⌈actual_distance / (avg_speed * 24)⌉
  let daily_fuel_consumption := ship_spec.fuel_rate_tons_per_day * ship_spec.fuel_efficiency_factor
  let wf := weather_factor_of weather_optimized dep_month
  let total_fuel_consumption := (voyage_days : ℚ) * daily_fuel_consumption * wf
  let origin_coords : Coords := ⟨origin.lat, origin.lng⟩
  let dest_coords : Coords := ⟨destination.lat, destination.lng⟩
  let avg_bunker_price := (origin.bunker_price + destination.bunker_price) / 2
  let fuel_cost := total_fuel_consumption * avg_bunker_price
  let port_cost_origin := deadweight * origin.port_cost_per_ton + 25000
  let port_cost_dest := deadweight * destination.port_cost_per_ton + 25000
  let total_port_costs := port_cost_origin + port_cost_dest
  let canal_cost := canal_cost_of origin.pname destination.pname
  let insurance_cost := cargo_value * 0.001
  let other_costs : ℚ := 50000
  let eca := calculate_eca_compliance origin_coords dest_coords
  let compliance_costs := eca.2
  let total_cost := fuel_cost + total_port_costs + (canal_cost : ℚ) + insurance_cost
    + other_costs + (compliance_costs : ℚ)
  let risk_assessment := assess_route_risks origin_coords dest_coords dep_month
  { voyage_days := voyage_days
    weather_factor := wf
    total_fuel_consumption := total_fuel_consumption
    cost_breakdown :=
      { fuel_cost := pyRound fuel_cost
        port_cost := pyRound total_port_costs
        canal_cost := canal_cost
        insurance_cost := pyRound insurance_cost
        compliance_cost := compliance_costs
        other_costs := 50000
        total_cost := pyRound total_cost
        fuel_cost_exact := fuel_cost
        port_cost_exact := total_port_costs
        insurance_cost_exact := insurance_cost
        total_cost_exact := total_cost }
    risk_assessment := risk_assessment }

/-- `MAJOR_PORTS.get(name)` of app.py. -/
def lookupPort (pname : String) : Option Port :=
  MAJOR_PORTS.find? (fun p => p.pname = pname)

/-- `SHIP_TYPES.get(key)` of app.py. -/
def lookupShip (key : String) : Option ShipType :=
  SHIP_TYPES.find? (fun s => s.key = key)

/-- `maritime_route_plan` of app.py: resolve the two ports (combined check,
error "Invalid port selection"), then the ship type (error "Invalid ship
type"), then run the pure cost/risk pipeline; a failed lookup returns the
error with no partial result.  `distFn` abstracts
`calculate_great_circle_distance` (modelled separately over ℝ). -/
def maritime_route_plan (origin destination ship_type : String)
    (deadweight cargo_value : ℚ) (dep_month : ℕ) (weather_optimized : Bool)
    (distFn : Coords → Coords → ℚ) : Except String RoutePlanResult :=
  match lookupPort origin, lookupPort destination with
  | some o, some d =>
    match lookupShip ship_type with
    | some ship_spec =>
      .ok (route_plan_core o d ship_spec deadweight cargo_value dep_month
        weather_optimized (distFn ⟨o.lat, o.lng⟩ ⟨d.lat, d.lng⟩))
    | none => .error "Invalid ship type"
  | _, _ => .error "Invalid port selection"

/-- A bunkering port from `BUNKERING_PORTS` in simu_routes.py. -/
structure BunkerPort where
  bpname : String
  lat : ℚ
  lng : ℚ
  bunker_price : ℚ
deriving DecidableEq

/-- The `BUNKERING_PORTS` dict of simu_routes.py, in source order. -/
def BUNKERING_PORTS : List BunkerPort := [
  ⟨"Singapore", 1.3521, 103.8198, 680⟩,
  ⟨"Rotterdam", 51.9225, 4.4792, 650⟩,
  ⟨"Fujairah", 25.1164, 56.3467, 645⟩,
  ⟨"Gibraltar", 36.1408, -5.3536, 660⟩]

/-- `min(BUNKERING_PORTS, key=bunker_price)` of simu_routes.py: the first
port of minimal bunker price in iteration order. -/
def cheapestBunkeringPort : String :=
  match BUNKERING_PORTS.foldl (fun acc p => match acc with
    | none => some p
    | some q => if p.bunker_price < q.bunker_price then some p else some q) none with
  | some p => p.bpname
  | none => ""

/-- A ship profile from the `SHIP_TYPES` dict of simu_routes.py (distinct
from the app.py catalog). -/
structure SimShip where
  key : String
  sname : String
  fuel_rate_tons_per_day : ℚ
  avg_speed_knots : ℚ
  fuel_capacity_tons : ℚ
deriving DecidableEq

/-- The simulator's `SHIP_TYPES` dict, in source order. -/
def SIM_SHIP_TYPES : List SimShip := [
  ⟨"container", "Container Ship", 45, 18, 5000⟩,
  ⟨"bulk", "Bulk Carrier", 35, 14, 4000⟩,
  ⟨"tanker", "Oil Tanker", 40, 15, 4500⟩]

/-- `SHIP_TYPES.get(ship_type)` of simu_routes.py. -/
def lookupSimShip (key : String) : Option SimShip :=
  SIM_SHIP_TYPES.find? (fun s => s.key = key)

/-- The inputs of one iteration of the simulator's leg loop: the leg's
great-circle distance, the commanded speed for the leg (after the
speed-adjustment override), and the three weather perturbation draws. -/
structure LegIn where
  dist : ℚ
  stw : ℚ
  wind : ℚ
  wave : ℚ
  cur : ℚ
deriving DecidableEq

/-- The cubic-law fuel consumption of one leg (simu_routes.py lines 105-109):
`(base_fuel_per_day / 24) * leg_hours * (current_stw / design_speed) ** 3`. -/
def fuel_consumption_formula (base_fuel_per_day leg_hours current_stw design_speed : ℚ) : ℚ :=
  base_fuel_per_day / 24 * leg_hours * (current_stw / design_speed) ^ 3

/-- The quantities one loop iteration derives from a `LegIn`. -/
structure LegOut where
  stw_effective : ℚ
  sog : ℚ
  leg_hours : ℚ
  fuel_consumption_mt : ℚ
deriving DecidableEq

/-- One iteration of the leg loop of `simulate_route` (simu_routes.py lines
88-109): effective speed through water, speed over ground floored at 1.0,
leg hours, and cubic-law fuel consumption.  The source's
`dist_nm / sog if sog > 0 else inf` guard is unreachable past the floor
(`sog ≥ 1 > 0`) and is embedded as the plain division. -/
def legCompute (ship_spec : SimShip) (l : LegIn) : LegOut :=
  let stw_effective := l.stw + l.wind + l.wave
  let sog0 := stw_effective + l.cur
  let sog := if sog0 < 1 then 1 else sog0
  let leg_hours := l.dist / sog
  ⟨stw_effective, sog, leg_hours,
    fuel_consumption_formula ship_spec.fuel_rate_tons_per_day leg_hours l.stw
      ship_spec.avg_speed_knots⟩

/-- One emitted leg record: its inputs, derived quantities, the clock at the
start of the leg, and `arrivalTime = clock + leg_hours`. -/
structure LegRec where
  inp : LegIn
  out : LegOut
  clockIn : ℚ
  arrival : ℚ
deriving DecidableEq

/-- The simulator's leg loop as a fold: times are rational hours (the
datetime arithmetic `current_time + timedelta(hours=leg_hours)` becomes
addition of hours).  Returns the emitted leg records in order and the final
clock value (`current_time` after the loop). -/
def runSim (ship_spec : SimShip) : ℚ → List LegIn → List LegRec × ℚ
  | t, [] => ([], t)
  | t, l :: ls =>
    let out := legCompute ship_spec l
    let arrival := t + out.leg_hours
    let rest := runSim ship_spec arrival ls
    (⟨l, out, t, arrival⟩ :: rest.1, rest.2)

/-- The consecutive waypoint pairs the loop `for i in range(len(waypoints)-1)`
iterates over. -/
def legPairs (wps : List Coords) : List (Coords × Coords) :=
  wps.zip wps.tail

/-- Assembly of the loop's per-iteration inputs: `current_stw` is the
speed-adjustment override for the leg index when present, else the base
commanded speed; `pert i` supplies the leg's (wind, wave, current) draws
(the injectable random source); `distFn` abstracts `calculate_distance`
(modelled separately over ℝ). -/
def legInputs (stw : ℚ) (pert : ℕ → ℚ × ℚ × ℚ) (adj : ℕ → Option ℚ)
    (distFn : Coords → Coords → ℚ) (wps : List Coords) : List LegIn :=
  (legPairs wps).mapIdx fun i pq =>
    let current_stw := match adj i with
      | some v => v
      | none => stw
    ⟨distFn pq.1 pq.2, current_stw, (pert i).1, (pert i).2.1, (pert i).2.2⟩

/-- The laycan verdict of simu_routes.py lines 138-142, as a function of
`diff` hours. -/
def laycan_status_of (diff : ℚ) : String :=
  if diff < 0 then "late"
  else if diff > 48 then "early"
  else "on_time"

/-- The parts of the `simulate_route` response the claims are about.  Times
are rational hours; `diff_hours = laycan_end − eta` (the source computes the
same value as `total_seconds() / 3600` on datetimes). -/
structure SimResult where
  legs : List LegRec
  distance_nm : ℚ
  voyage_hours : ℚ
  fuel_consumption_mt : ℚ
  eta : ℚ
  laycan_status : String
  diff_hours : ℚ
  bunker_cost : ℚ
  co2_cost : ℚ
  total_voyage_cost : ℚ
  fuel_stops : List (String × ℚ)
deriving DecidableEq

/-- `simulate_route` of simu_routes.py: ship-type lookup first (error
"Invalid ship type provided." with no legs computed), then the leg loop,
then laycan analysis, costs, and the fuel-stop recommendation.  The loop
accumulates `total_dist/total_hours/total_fuel` leg by leg; the fold result
is summed here, which yields the same totals. -/
def simulate_route (ship_type : String) (stw : ℚ) (wps : List Coords)
    (pert : ℕ → ℚ × ℚ × ℚ) (adj : ℕ → Option ℚ) (start_time laycan_end : ℚ)
    (bunker_price co2_price : ℚ) (distFn : Coords → Coords → ℚ) :
    Except String SimResult :=
  match lookupSimShip ship_type with
  | none => .error "Invalid ship type provided."
  | some ship_spec =>
    let res := runSim ship_spec start_time (legInputs stw pert adj distFn wps)
    let legs := res.1
    let current_time := res.2
    let total_dist := (legs.map (fun r => r.inp.dist)).sum
    let total_hours := (legs.map (fun r => r.out.leg_hours)).sum
    let total_fuel := (legs.map (fun r => r.out.fuel_consumption_mt)).sum
    let diff := laycan_end - current_time
    let bunker_cost := total_fuel * bunker_price
    let co2_cost := total_fuel * 3.17 * co2_price
    let fuel_stops := if total_fuel > ship_spec.fuel_capacity_tons then
        [(cheapestBunkeringPort, total_fuel - ship_spec.fuel_capacity_tons + 500)]
      else []
    .ok
      { legs := legs
        distance_nm := total_dist
        voyage_hours := total_hours
        fuel_consumption_mt := total_fuel
        eta := current_time
        laycan_status := laycan_status_of diff
        diff_hours := diff
        bunker_cost := bunker_cost
        co2_cost := co2_cost
        total_voyage_cost := bunker_cost + co2_cost
        fuel_stops := fuel_stops }

/-- `math.radians`. -/
noncomputable def radians (deg : ℝ) : ℝ := deg * Real.pi / 180

/-- The haversine term `a = sin(dlat/2)**2 + cos(lat1)*cos(lat2)*sin(dlng/2)**2`
(in radians), shared verbatim by `calculate_great_circle_distance` (app.py)
and `calculate_distance` (simu_routes.py). -/
noncomputable def haversine_a (lat1 lng1 lat2 lng2 : ℝ) : ℝ :=
  Real.sin ((radians lat2 - radians lat1) / 2) ^ 2
    + Real.cos (radians lat1) * Real.cos (radians lat2)
      * Real.sin ((radians lng2 - radians lng1) / 2) ^ 2

/-- `calculate_great_circle_distance` of app.py: haversine distance in
nautical miles with Earth radius `R = 3440.065` nm, central angle
`c = 2 * asin(sqrt a)`, result `R * c`. -/
noncomputable def calculate_great_circle_distance (lat1 lng1 lat2 lng2 : ℝ) : ℝ :=
  3440.065 * (2 * Real.arcsin (Real.sqrt (haversine_a lat1 lng1 lat2 lng2)))

/-- Python's `math.atan2`. -/
noncomputable def atan2 (y x : ℝ) : ℝ :=
  if 0 < x then Real.arctan (y / x)
  else if x < 0 then
    (if 0 ≤ y then Real.arctan (y / x) + Real.pi else Real.arctan (y / x) - Real.pi)
  else if 0 < y then Real.pi / 2
  else if y < 0 then -(Real.pi / 2)
  else 0

/-- `calculate_distance` of simu_routes.py: the same haversine formula with
Earth radius `R = 3440.065` nm and the central angle computed as
`c = 2 * atan2(sqrt a, sqrt (1 - a))`. -/
noncomputable def calculate_distance (lat1 lon1 lat2 lon2 : ℝ) : ℝ :=
  3440.065
    * (2 * atan2 (Real.sqrt (haversine_a lat1 lon1 lat2 lon2))
        (Real.sqrt (1 - haversine_a lat1 lon1 lat2 lon2)))

/-! ### Helper lemmas -/

theorem legCompute_sog_def (ship_spec : SimShip) (l : LegIn) :
    (legCompute ship_spec l).sog
      = if l.stw + l.wind + l.wave + l.cur < 1 then 1 else l.stw + l.wind + l.wave + l.cur :=
  rfl

theorem legCompute_sog_ge_one (ship_spec : SimShip) (l : LegIn) :
    1 ≤ (legCompute ship_spec l).sog := by
  rw [legCompute_sog_def]
  split_ifs with h
  · exact le_refl 1
  · exact le_of_not_lt h

theorem legCompute_hours_def (ship_spec : SimShip) (l : LegIn) :
    (legCompute ship_spec l).leg_hours = l.dist / (legCompute ship_spec l).sog :=
  rfl

theorem legCompute_sog_pos (ship_spec : SimShip) (l : LegIn) :
    0 < (legCompute ship_spec l).sog :=
  lt_of_lt_of_le one_pos (legCompute_sog_ge_one ship_spec l)

theorem legCompute_hours_nonneg (ship_spec : SimShip) (l : LegIn) (h : 0 ≤ l.dist) :
    0 ≤ (legCompute ship_spec l).leg_hours := by
  rw [legCompute_hours_def]
  exact div_nonneg h (le_of_lt (legCompute_sog_pos ship_spec l))

theorem legCompute_hours_pos (ship_spec : SimShip) (l : LegIn) (h : 0 < l.dist) :
    0 < (legCompute ship_spec l).leg_hours := by
  rw [legCompute_hours_def]
  exact div_pos h (legCompute_sog_pos ship_spec l)

/-! ### C3 -/

/-- C3 (amended): for every ship profile, every leg distance, every commanded
speed and every perturbation draw, the speed over ground is at least 1.0; the
leg hours `distance / sog` are therefore well defined (finite), nonnegative
whenever the distance is, and positive whenever the distance is positive.
(The claim's "always positive" fails for a zero-distance leg, see the
counterexample.) -/
theorem sog_floored_leg_hours (ship_spec : SimShip) (l : LegIn) :
    1 ≤ (legCompute ship_spec l).sog
    ∧ (0 ≤ l.dist → 0 ≤ (legCompute ship_spec l).leg_hours)
    ∧ (0 < l.dist → 0 < (legCompute ship_spec l).leg_hours) :=
  ⟨legCompute_sog_ge_one ship_spec l,
   legCompute_hours_nonneg ship_spec l,
   legCompute_hours_pos ship_spec l⟩

/-- C3 witness: on a concrete 5 nm leg of the container profile at 14 knots
with in-range draws, the theorem yields `sog ≥ 1` and positive leg hours. -/
theorem sog_floored_leg_hours_witness :
    1 ≤ (legCompute ⟨"container", "Container Ship", 45, 18, 5000⟩
        ⟨5, 14, 0, -1/2, 0⟩).sog
    ∧ 0 < (legCompute ⟨"container", "Container Ship", 45, 18, 5000⟩
        ⟨5, 14, 0, -1/2, 0⟩).leg_hours :=
  ⟨(sog_floored_leg_hours _ _).1, (sog_floored_leg_hours _ _).2.2 (by norm_num)⟩

/-- C3 counterexample: a leg between coincident waypoints has distance 0, and
with draws inside the stated ranges (wind 0 ∈ (−1.5, 0.5), wave −0.5 ∈
(−1.0, −0.2), current 0 ∈ (−2, 2)) at commanded speed 14 the computed
`leg_hours` is 0, not positive — refuting "leg_hours is always positive". -/
theorem zero_distance_leg_hours_not_positive :
    ((-3/2 : ℚ) < 0 ∧ (0 : ℚ) < 1/2)
    ∧ ((-1 : ℚ) < -1/2 ∧ (-1/2 : ℚ) < -1/5)
    ∧ ((-2 : ℚ) < 0 ∧ (0 : ℚ) < 2)
    ∧ ¬(0 < (legCompute ⟨"container", "Container Ship", 45, 18, 5000⟩
        ⟨0, 14, 0, -1/2, 0⟩).leg_hours) := by
  norm_num [legCompute]

/-! ### C4 -/

/-- C4: the laycan verdict as a function of `diff_hours = laycan_end −
final_arrival`: "late" iff diff < 0, "early" iff diff > 48, "on_time" iff
0 ≤ diff ≤ 48; in particular diff = 0 ↦ "on_time", diff = 50 ↦ "early",
diff = −0.01 ↦ "late". -/
theorem laycan_verdict_characterisation :
    (∀ diff : ℚ,
      (laycan_status_of diff = "late" ↔ diff < 0)
      ∧ (laycan_status_of diff = "early" ↔ diff > 48)
      ∧ (laycan_status_of diff = "on_time" ↔ 0 ≤ diff ∧ diff ≤ 48))
    ∧ laycan_status_of 0 = "on_time"
    ∧ laycan_status_of 50 = "early"
    ∧ laycan_status_of (-0.01) = "late" := by
  have hne1 : ("late" : String) ≠ "early" := by decide
  have hne2 : ("late" : String) ≠ "on_time" := by decide
  have hne3 : ("early" : String) ≠ "on_time" := by decide
  refine ⟨fun diff => ?_, by norm_num [laycan_status_of], by norm_num [laycan_status_of],
    by norm_num [laycan_status_of]⟩
  unfold laycan_status_of
  split_ifs with h1 h2
  · exact ⟨⟨fun _ => h1, fun _ => rfl⟩,
      ⟨fun h => absurd h hne1, fun h => absurd h1 (by linarith)⟩,
      ⟨fun h => absurd h hne2, fun h => absurd h1 (by linarith [h.1])⟩⟩
  · exact ⟨⟨fun h => absurd h (Ne.symm hne1), fun h => absurd h h1⟩,
      ⟨fun _ => h2, fun _ => rfl⟩,
      ⟨fun h => absurd h hne3, fun h => absurd h2 (by linarith [h.2])⟩⟩
  · exact ⟨⟨fun h => absurd h (Ne.symm hne2), fun h => absurd h h1⟩,
      ⟨fun h => absurd h (Ne.symm hne3), fun h => absurd h h2⟩,
      ⟨fun _ => ⟨le_of_not_lt h1, le_of_not_lt h2⟩, fun _ => rfl⟩⟩

/-! ### C5 -/

/-- C5: for every origin and destination drawn from the configured port
catalog, the canal-cost substring heuristic never fires, so the 222865
surcharge is never applied: `canal_cost = 0` on every catalog pair. -/
theorem canal_heuristic_never_fires (o d : Port)
    (ho : o ∈ MAJOR_PORTS) (hd : d ∈ MAJOR_PORTS) :
    canal_cost_of o.pname d.pname = 0 := by
  have key : ∀ o ∈ MAJOR_PORTS, ∀ d ∈ MAJOR_PORTS, canal_cost_of o.pname d.pname = 0 := by
    decide
  exact key o ho d hd

/-- C5 witness: the Singapore → Rotterdam catalog pair has canal cost 0. -/
theorem canal_heuristic_never_fires_witness :
    canal_cost_of "Singapore" "Rotterdam" = 0 :=
  canal_heuristic_never_fires ⟨"Singapore", 1.3521, 103.8198, 680, 0.8⟩
    ⟨"Rotterdam", 51.9225, 4.4792, 650, 0.9⟩
    (by unfold MAJOR_PORTS; exact List.Mem.head _)
    (by unfold MAJOR_PORTS; exact List.Mem.tail _ (List.Mem.head _))

/-! ### C7 -/

/-- C7: per-leg fuel consumption is exactly
`(fuel_rate_per_day / 24) × leg_hours × (commanded_speed / design_speed)³`,
and with design speed and leg hours held fixed, doubling the commanded speed
multiplies that fuel consumption by exactly 8. -/
theorem fuel_cubic_law :
    (∀ (ship_spec : SimShip) (l : LegIn),
      (legCompute ship_spec l).fuel_consumption_mt
        = fuel_consumption_formula ship_spec.fuel_rate_tons_per_day
            (legCompute ship_spec l).leg_hours l.stw ship_spec.avg_speed_knots)
    ∧ (∀ base_fuel_per_day leg_hours current_stw design_speed : ℚ,
      fuel_consumption_formula base_fuel_per_day leg_hours (2 * current_stw) design_speed
        = 8 * fuel_consumption_formula base_fuel_per_day leg_hours current_stw design_speed) := by
  refine ⟨fun ship_spec l => rfl, fun b h c d => ?_⟩
  unfold fuel_consumption_formula
  ring

/-! ### C10 -/

theorem sin_sq_neg_swap (x y : ℝ) :
    Real.sin ((x - y) / 2) ^ 2 = Real.sin ((y - x) / 2) ^ 2 := by
  rw [show (x - y) / 2 = -((y - x) / 2) by ring, Real.sin_neg]
  ring

theorem haversine_a_self (lat lng : ℝ) : haversine_a lat lng lat lng = 0 := by
  unfold haversine_a
  simp

theorem haversine_a_symm (lat1 lng1 lat2 lng2 : ℝ) :
    haversine_a lat1 lng1 lat2 lng2 = haversine_a lat2 lng2 lat1 lng1 := by
  unfold haversine_a
  rw [sin_sq_neg_swap (radians lat2) (radians lat1),
    sin_sq_neg_swap (radians lng2) (radians lng1)]
  ring

/-- C10: both great-circle distance functions (app.py's asin form and
simu_routes.py's atan2 form, Earth radius 3440.065 nm) return 0 on identical
points and are symmetric in their two points; being total Lean functions over
ℝ they are defined for every pair of coordinates. -/
theorem distance_identity_and_symmetry :
    (∀ lat lng : ℝ,
      calculate_great_circle_distance lat lng lat lng = 0
      ∧ calculate_distance lat lng lat lng = 0)
    ∧ ∀ lat1 lng1 lat2 lng2 : ℝ,
      calculate_great_circle_distance lat1 lng1 lat2 lng2
        = calculate_great_circle_distance lat2 lng2 lat1 lng1
      ∧ calculate_distance lat1 lng1 lat2 lng2
        = calculate_distance lat2 lng2 lat1 lng1 := by
  constructor
  · intro lat lng
    constructor
    · unfold calculate_great_circle_distance
      rw [haversine_a_self]
      simp
    · unfold calculate_distance
      rw [haversine_a_self]
      unfold atan2
      norm_num [Real.sqrt_zero, Real.sqrt_one, Real.arctan_zero]
  · intro lat1 lng1 lat2 lng2
    constructor
    · unfold calculate_great_circle_distance
      rw [haversine_a_symm]
    · unfold calculate_distance
      rw [haversine_a_symm]

/-! ### C1 -/

theorem piracyStep_score_le (o d : Coords) (acc : List RiskFinding × ℕ) (z : Zone) :
    acc.2 ≤ (piracyStep o d acc z).2 := by
  unfold piracyStep
  split_ifs
  · exact Nat.le_add_right _ _
  · exact Nat.le_add_right _ _
  · exact Nat.le_refl _

theorem piracyStep_score_add (o d : Coords) (acc : List RiskFinding × ℕ) (z : Zone)
    (hz : z.risk_level = "HIGH")
    (hc : is_point_in_zone o.lat o.lng z.bounds ∨ is_point_in_zone d.lat d.lng z.bounds) :
    acc.2 + 35 ≤ (piracyStep o d acc z).2 := by
  unfold piracyStep
  rw [if_pos hc, if_pos hz]

theorem riskStep_score_le (c : Prop) [Decidable c] (f : RiskFinding) (pts : ℕ)
    (acc : List RiskFinding × ℕ) : acc.2 ≤ (riskStep c f pts acc).2 := by
  unfold riskStep
  split_ifs
  · exact Nat.le_add_right _ _
  · exact Nat.le_refl _

theorem overallOf_ne_low (s : ℕ) (h : 25 ≤ s) : overallOf s ≠ "LOW" := by
  unfold overallOf
  split_ifs with h1
  · exact fun hc => absurd hc (by decide)
  · exact fun hc => absurd hc (by decide)

theorem piracy_fold_score_ge (o d : Coords)
    (h : ∃ z ∈ PIRACY_ZONES, z.risk_level = "HIGH"
      ∧ (is_point_in_zone o.lat o.lng z.bounds ∨ is_point_in_zone d.lat d.lng z.bounds)) :
    35 ≤ (PIRACY_ZONES.foldl (piracyStep o d) ([], 0)).2 := by
  obtain ⟨z, hmem, hlevel, hcond⟩ := h
  simp only [PIRACY_ZONES, List.mem_cons, List.not_mem_nil, or_false] at hmem
  simp only [PIRACY_ZONES, List.foldl]
  rcases hmem with rfl | rfl | rfl
  · exact le_trans (by simpa using piracyStep_score_add o d ([], 0) _ hlevel hcond)
      (le_trans (piracyStep_score_le _ _ _ _) (piracyStep_score_le _ _ _ _))
  · exact le_trans (le_trans (Nat.le_add_left 35 _)
      (piracyStep_score_add o d _ _ hlevel hcond)) (piracyStep_score_le _ _ _ _)
  · exact absurd hlevel (by decide)

/-- C1 (amended): if either endpoint lies inside the bounds of a piracy zone
with risk_level HIGH, the assessment's `risk_score` is at least 35 and its
`overall_risk` is not LOW (i.e. MEDIUM or HIGH).  The claim's stronger
"overall_risk = HIGH" fails: a lone HIGH-zone finding scores 35, below the
50 threshold for HIGH — see the counterexample. -/
theorem high_piracy_zone_risk (o d : Coords) (dep_month : ℕ)
    (h : ∃ z ∈ PIRACY_ZONES, z.risk_level = "HIGH"
      ∧ (is_point_in_zone o.lat o.lng z.bounds ∨ is_point_in_zone d.lat d.lng z.bounds)) :
    35 ≤ (assess_route_risks o d dep_month).risk_score
    ∧ (assess_route_risks o d dep_month).overall_risk ≠ "LOW" := by
  have h35 := piracy_fold_score_ge o d h
  simp only [assess_route_risks]
  constructor
  · exact le_min (le_trans h35 (le_trans (riskStep_score_le _ _ _ _)
      (le_trans (riskStep_score_le _ _ _ _) (riskStep_score_le _ _ _ _)))) (by norm_num)
  · exact overallOf_ne_low _ (le_trans (by norm_num) (le_trans h35
      (le_trans (riskStep_score_le _ _ _ _)
        (le_trans (riskStep_score_le _ _ _ _) (riskStep_score_le _ _ _ _)))))

/-- C1 witness: origin (14, 47) lies in the HIGH-risk Gulf of Aden zone; for
destination (14, 80) and a January departure the theorem gives score ≥ 35 and
a non-LOW overall risk. -/
theorem high_piracy_zone_risk_witness :
    35 ≤ (assess_route_risks ⟨14, 47⟩ ⟨14, 80⟩ 1).risk_score
    ∧ (assess_route_risks ⟨14, 47⟩ ⟨14, 80⟩ 1).overall_risk ≠ "LOW" :=
  high_piracy_zone_risk ⟨14, 47⟩ ⟨14, 80⟩ 1
    ⟨⟨"Gulf of Aden", ⟨10, 18, 42, 52⟩, "HIGH"⟩,
      by unfold PIRACY_ZONES; exact List.Mem.head _,
      rfl,
      Or.inl (by norm_num [is_point_in_zone])⟩

/-- C1 counterexample: origin (14, 47) is inside the HIGH piracy zone
"Gulf of Aden", destination (14, 80), departure month January: only the
piracy finding fires, the score is 35 < 50, and `overall_risk` is "MEDIUM",
not "HIGH" — refuting the claim as stated. -/
theorem piracy_high_zone_yet_overall_medium :
    is_point_in_zone 14 47 ⟨10, 18, 42, 52⟩
    ∧ (⟨"Gulf of Aden", ⟨10, 18, 42, 52⟩, "HIGH"⟩ : Zone) ∈ PIRACY_ZONES
    ∧ (assess_route_risks ⟨14, 47⟩ ⟨14, 80⟩ 1).overall_risk = "MEDIUM"
    ∧ (assess_route_risks ⟨14, 47⟩ ⟨14, 80⟩ 1).overall_risk ≠ "HIGH" := by
  have heval : (assess_route_risks ⟨14, 47⟩ ⟨14, 80⟩ 1).overall_risk = "MEDIUM" := by
    norm_num [assess_route_risks, piracyStep, riskStep, overallOf, findPortByLat,
      PIRACY_ZONES, MAJOR_PORTS, busy_ports, is_point_in_zone, List.foldl, abs_lt]
    decide
  refine ⟨by norm_num [is_point_in_zone],
    by unfold PIRACY_ZONES; exact List.Mem.head _, heval, ?_⟩
  rw [heval]
  decide

/-! ### C6 -/

theorem runSim_cons_fst (spec : SimShip) (t : ℚ) (l : LegIn) (ls : List LegIn) :
    (runSim spec t (l :: ls)).1
      = ⟨l, legCompute spec l, t, t + (legCompute spec l).leg_hours⟩
        :: (runSim spec (t + (legCompute spec l).leg_hours) ls).1 := rfl

theorem runSim_head_clockIn (spec : SimShip) (t : ℚ) (ls : List LegIn) :
    ∀ r ∈ ((runSim spec t ls).1).head?, r.clockIn = t := by
  cases ls with
  | nil => simp [runSim]
  | cons l ls2 => simp [runSim_cons_fst]

/-- C6: in the simulator's leg loop, every emitted leg's arrival time is the
clock at the start of that leg plus its leg hours; the clock carried into the
next leg is exactly the previous leg's arrival time; and when every leg
distance is nonnegative (as every great-circle distance is) the arrival
times are non-decreasing from leg to leg — the clock is never reset. -/
theorem clock_carried_and_monotone (spec : SimShip) (t0 : ℚ) (inputs : List LegIn) :
    (∀ r ∈ (runSim spec t0 inputs).1, r.arrival = r.clockIn + r.out.leg_hours)
    ∧ List.Chain' (fun a b => b.clockIn = a.arrival) (runSim spec t0 inputs).1
    ∧ ((∀ l ∈ inputs, 0 ≤ l.dist) →
        List.Chain' (fun a b : LegRec => a.arrival ≤ b.arrival) (runSim spec t0 inputs).1) := by
  induction inputs generalizing t0 with
  | nil => exact ⟨by simp [runSim], by simp [runSim], fun _ => by simp [runSim]⟩
  | cons l ls ih =>
    obtain ⟨ih1, ih2, ih3⟩ := ih (t0 + (legCompute spec l).leg_hours)
    refine ⟨?_, ?_, ?_⟩
    · intro r hr
      rw [runSim_cons_fst] at hr
      rcases List.mem_cons.mp hr with rfl | hr2
      · rfl
      · exact ih1 r hr2
    · rw [runSim_cons_fst, List.chain'_cons']
      exact ⟨fun b hb => runSim_head_clockIn spec _ ls b hb, ih2⟩
    · intro hd
      rw [runSim_cons_fst, List.chain'_cons']
      constructor
      · intro b hb
        cases ls with
        | nil => simp [runSim] at hb
        | cons l2 ls2 =>
          rw [runSim_cons_fst] at hb
          simp only [List.head?_cons, Option.mem_some_iff] at hb
          subst hb
          have h2 : 0 ≤ (legCompute spec l2).leg_hours :=
            legCompute_hours_nonneg spec l2 (hd l2 (by simp))
          show t0 + (legCompute spec l).leg_hours
              ≤ t0 + (legCompute spec l).leg_hours + (legCompute spec l2).leg_hours
          linarith
      · exact ih3 fun x hx => hd x (List.mem_cons_of_mem _ hx)

/-- C6 witness: a concrete two-leg run of the container profile from clock 0
has non-decreasing arrival times. -/
theorem clock_carried_and_monotone_witness :
    List.Chain' (fun a b : LegRec => a.arrival ≤ b.arrival)
      (runSim ⟨"container", "Container Ship", 45, 18, 5000⟩ 0
        [⟨5, 14, 0, -1/2, 0⟩, ⟨3, 12, -1, -1/2, 1⟩]).1 :=
  (clock_carried_and_monotone ⟨"container", "Container Ship", 45, 18, 5000⟩ 0
    [⟨5, 14, 0, -1/2, 0⟩, ⟨3, 12, -1, -1/2, 1⟩]).2.2 (by
      intro x hx
      simp only [List.mem_cons, List.not_mem_nil, or_false] at hx
      rcases hx with rfl | rfl <;> norm_num)

/-! ### C8 -/

/-- C8: both operations fail fast on an unknown reference with no partial
result: `simulate_route` with a ship type missing from the catalog returns
the "Invalid ship type provided." error (no legs, no totals), and
`maritime_route_plan` with an unknown origin port, destination port, or ship
type returns an error with no `RoutePlanResult`. -/
theorem fail_fast_invalid_reference :
    (∀ (ship_type : String) (stw : ℚ) (wps : List Coords) (pert : ℕ → ℚ × ℚ × ℚ)
        (adj : ℕ → Option ℚ) (start_time laycan_end bunker_price co2_price : ℚ)
        (distFn : Coords → Coords → ℚ),
      lookupSimShip ship_type = none →
        simulate_route ship_type stw wps pert adj start_time laycan_end bunker_price
          co2_price distFn = .error "Invalid ship type provided.")
    ∧ (∀ (origin destination ship_type : String) (deadweight cargo_value : ℚ)
        (dep_month : ℕ) (weather_optimized : Bool) (distFn : Coords → Coords → ℚ),
      lookupPort origin = none ∨ lookupPort destination = none
          ∨ lookupShip ship_type = none →
        ∃ e, maritime_route_plan origin destination ship_type deadweight cargo_value
          dep_month weather_optimized distFn = .error e) := by
  constructor
  · intro st stw wps pert adj t0 lend bp cp dfn h
    unfold simulate_route
    rw [h]
  · intro o d st dw cv m w dfn h
    unfold maritime_route_plan
    cases hO : lookupPort o with
    | none => cases hD : lookupPort d <;> exact ⟨_, rfl⟩
    | some po =>
      cases hD : lookupPort d with
      | none => exact ⟨_, rfl⟩
      | some pd =>
        rcases h with h | h | h
        · rw [hO] at h
          exact absurd h (by simp)
        · rw [hD] at h
          exact absurd h (by simp)
        · rw [h]
          exact ⟨_, rfl⟩

/-- C8 witness: "submarine" is not a simulator ship type and yields the
invalid-ship error; "Atlantis" is not a catalog port and makes the planner
return an error. -/
theorem fail_fast_invalid_reference_witness :
    simulate_route "submarine" 14 [] (fun _ => (0, 0, 0)) (fun _ => none) 0 100 650 90
        (fun _ _ => 0) = .error "Invalid ship type provided."
    ∧ ∃ e, maritime_route_plan "Atlantis" "Rotterdam" "container" 50000 2500000 9 false
        (fun _ _ => 0) = .error e :=
  ⟨fail_fast_invalid_reference.1 "submarine" 14 [] (fun _ => (0, 0, 0)) (fun _ => none)
      0 100 650 90 (fun _ _ => 0) (by decide),
   fail_fast_invalid_reference.2 "Atlantis" "Rotterdam" "container" 50000 2500000 9 false
      (fun _ _ => 0) (Or.inl (by decide))⟩

/-! ### C9 -/

theorem legPairs_short (wps : List Coords) (h : wps.length < 2) : legPairs wps = [] := by
  cases wps with
  | nil => rfl
  | cons a t =>
    cases t with
    | nil => rfl
    | cons b t2 =>
      exfalso
      simp only [List.length_cons] at h
      omega

/-- C9: with a valid ship type and fewer than two waypoints, `simulate_route`
succeeds rather than erroring: no leg pair exists, so it returns an empty leg
list and zero totals for distance, hours and fuel. -/
theorem short_waypoints_empty_simulation (ship_type : String) (spec : SimShip)
    (hspec : lookupSimShip ship_type = some spec) (stw : ℚ) (wps : List Coords)
    (hlen : wps.length < 2) (pert : ℕ → ℚ × ℚ × ℚ) (adj : ℕ → Option ℚ)
    (start_time laycan_end bunker_price co2_price : ℚ) (distFn : Coords → Coords → ℚ) :
    ∃ res, simulate_route ship_type stw wps pert adj start_time laycan_end bunker_price
        co2_price distFn = .ok res
      ∧ res.legs = [] ∧ res.distance_nm = 0 ∧ res.voyage_hours = 0
      ∧ res.fuel_consumption_mt = 0 := by
  have hinputs : legInputs stw pert adj distFn wps = [] := by
    unfold legInputs
    rw [legPairs_short wps hlen]
    rfl
  simp only [simulate_route, hspec, hinputs]
  exact ⟨_, rfl, rfl, rfl, rfl, rfl⟩

/-- C9 witness: simulating a single-waypoint route with the container profile
succeeds with no legs and zero totals. -/
theorem short_waypoints_empty_simulation_witness :
    ∃ res, simulate_route "container" 14 [⟨0, 0⟩] (fun _ => (0, 0, 0)) (fun _ => none)
        0 100 650 90 (fun _ _ => 0) = .ok res
      ∧ res.legs = [] ∧ res.distance_nm = 0 ∧ res.voyage_hours = 0
      ∧ res.fuel_consumption_mt = 0 :=
  short_waypoints_empty_simulation "container" ⟨"container", "Container Ship", 45, 18, 5000⟩
    (by decide) 14 [⟨0, 0⟩] (by decide) (fun _ => (0, 0, 0)) (fun _ => none) 0 100 650 90
    (fun _ _ => 0)

/-! ### C2 -/

/-- C2 (amended): for every request, the exact (pre-rounding) `total_cost`
equals the exact sum of the six exact components, and the surfaced integer
`total_cost` is the rounding of that exact sum — not the sum of the six
individually rounded fields, which can differ (see the counterexample). -/
theorem total_cost_exact_sum (o d : Port) (ship_spec : ShipType)
    (deadweight cargo_value : ℚ) (dep_month : ℕ) (weather_optimized : Bool)
    (base_distance : ℚ) :
    (route_plan_core o d ship_spec deadweight cargo_value dep_month weather_optimized
        base_distance).cost_breakdown.total_cost_exact
      = (route_plan_core o d ship_spec deadweight cargo_value dep_month weather_optimized
          base_distance).cost_breakdown.fuel_cost_exact
        + (route_plan_core o d ship_spec deadweight cargo_value dep_month weather_optimized
            base_distance).cost_breakdown.port_cost_exact
        + ((route_plan_core o d ship_spec deadweight cargo_value dep_month weather_optimized
            base_distance).cost_breakdown.canal_cost : ℚ)
        + (route_plan_core o d ship_spec deadweight cargo_value dep_month weather_optimized
            base_distance).cost_breakdown.insurance_cost_exact
        + ((route_plan_core o d ship_spec deadweight cargo_value dep_month weather_optimized
            base_distance).cost_breakdown.compliance_cost : ℚ)
        + ((route_plan_core o d ship_spec deadweight cargo_value dep_month weather_optimized
            base_distance).cost_breakdown.other_costs : ℚ)
    ∧ (route_plan_core o d ship_spec deadweight cargo_value dep_month weather_optimized
        base_distance).cost_breakdown.total_cost
      = pyRound ((route_plan_core o d ship_spec deadweight cargo_value dep_month
          weather_optimized base_distance).cost_breakdown.total_cost_exact) := by
  constructor
  · simp only [route_plan_core]
    push_cast
    ring
  · rfl

/-- C2 counterexample: a valid request — catalog ports Singapore and
Hong Kong, catalog ship "container", deadweight 50004, cargo value 400,
April departure, not weather-optimized — yields surfaced fields whose sum
(857506) differs from the surfaced `total_cost` (857507): each rounds down
(port 130006.4, insurance 0.4) while the exact total 857506.8 rounds up. -/
theorem rounded_breakdown_sum_mismatch :
    lookupPort "Singapore" = some ⟨"Singapore", 1.3521, 103.8198, 680, 0.8⟩
    ∧ lookupPort "Hong Kong" = some ⟨"Hong Kong", 22.3193, 114.1694, 675, 0.8⟩
    ∧ lookupShip "container" = some ⟨"container", "Container Ship", 250, 22, 1.0⟩
    ∧ (route_plan_core ⟨"Singapore", 1.3521, 103.8198, 680, 0.8⟩
        ⟨"Hong Kong", 22.3193, 114.1694, 675, 0.8⟩
        ⟨"container", "Container Ship", 250, 22, 1.0⟩ 50004 400 4 false
        1400).cost_breakdown.total_cost = 857507
    ∧ (route_plan_core ⟨"Singapore", 1.3521, 103.8198, 680, 0.8⟩
        ⟨"Hong Kong", 22.3193, 114.1694, 675, 0.8⟩
        ⟨"container", "Container Ship", 250, 22, 1.0⟩ 50004 400 4 false
        1400).cost_breakdown.fuel_cost
      + (route_plan_core ⟨"Singapore", 1.3521, 103.8198, 680, 0.8⟩
          ⟨"Hong Kong", 22.3193, 114.1694, 675, 0.8⟩
          ⟨"container", "Container Ship", 250, 22, 1.0⟩ 50004 400 4 false
          1400).cost_breakdown.port_cost
      + (route_plan_core ⟨"Singapore", 1.3521, 103.8198, 680, 0.8⟩
          ⟨"Hong Kong", 22.3193, 114.1694, 675, 0.8⟩
          ⟨"container", "Container Ship", 250, 22, 1.0⟩ 50004 400 4 false
          1400).cost_breakdown.canal_cost
      + (route_plan_core ⟨"Singapore", 1.3521, 103.8198, 680, 0.8⟩
          ⟨"Hong Kong", 22.3193, 114.1694, 675, 0.8⟩
          ⟨"container", "Container Ship", 250, 22, 1.0⟩ 50004 400 4 false
          1400).cost_breakdown.insurance_cost
      + (route_plan_core ⟨"Singapore", 1.3521, 103.8198, 680, 0.8⟩
          ⟨"Hong Kong", 22.3193, 114.1694, 675, 0.8⟩
          ⟨"container", "Container Ship", 250, 22, 1.0⟩ 50004 400 4 false
          1400).cost_breakdown.compliance_cost
      + (route_plan_core ⟨"Singapore", 1.3521, 103.8198, 680, 0.8⟩
          ⟨"Hong Kong", 22.3193, 114.1694, 675, 0.8⟩
          ⟨"container", "Container Ship", 250, 22, 1.0⟩ 50004 400 4 false
          1400).cost_breakdown.other_costs = 857506 := by
  have hcanal : canal_cost_of "Singapore" "Hong Kong" = 0 := by decide
  have hdays : ⌈(805 / 264 : ℚ)⌉ = (4 : ℤ) := by
    rw [Int.ceil_eq_iff]
    norm_num
  refine ⟨rfl, rfl, rfl, ?_, ?_⟩ <;>
    norm_num [route_plan_core, weather_factor_of, hcanal, hdays, calculate_eca_compliance,
      eca_zones_crossed_in, ECA_ZONES, is_point_in_zone, pyRound]

end Weathermary
